import Mathlib

/-
  Verification development for the RotationSensor library
  (src/RotationSensor.h, src/RotationSensor.cpp).

  The C++ class RotationSensor is embedded shallowly:

  * The volatile measurement fields `_count`, `_lastPulseTime`,
    `_prevPulseTime` are uint32_t; they are modelled as Nat values kept
    below 2^32 (every write in the model reduces mod 2^32, exactly as the
    32-bit store does).
  * The packed `_state` bitfield (RotationSensor.h lines 113-120) is
    modelled field by field with the bit widths of the source:
    `PulsesPerRev : 8` bits, `Pin : 5` bits, `IRQ : 2` bits,
    `Enabled : 1` bit.  A C++ assignment of an int value v to an
    unsigned bitfield of width w stores v mod 2^w; the model applies
    Int.emod by the corresponding modulus.
  * `NOT_AN_INTERRUPT` is the Arduino constant -1; `digitalPinToInterrupt`
    is an external platform mapping and is passed to the constructor as a
    parameter `dptI : Nat → Int` (it is applied to the stored 5-bit pin,
    as in the source).
  * The global dispatch table `pSensors` and the attach/detach state of
    the interrupt lines are external to the class; they are modelled by
    an `Env` record (for a single sensor instance: whether this instance
    is registered at a given index, and whether the line is bound).
    `Enable` also returns the ordered list of externally visible actions
    it performs, so that ordering claims about reset / register / attach /
    detach can be stated.
  * `RPM()` (RotationSensor.h line 33) computes
    `60000000.0 / (LastInterval * CountsPerRev)` where the product is
    32-bit unsigned multiplication (it wraps mod 2^32) and the quotient
    is truncated to int on return.  For a numerator of 60000000 and an
    integer divisor, truncating the rounded floating-point quotient
    coincides with integer floor division (the true quotient is never
    within half an ulp of the next integer), so the model uses Nat
    division of 60000000 by the wrapped product.
  * `Revs()` computes `((float)Count) / CountsPerRev`; it is modelled in
    exact rational arithmetic.  The claims about it only concern sign and
    the disabled sentinel, which floating-point rounding preserves.
  * The constructor does not initialise the three measurement fields
    (only `Enable(true)` resets them before they become observable), so
    the model constructor takes their initial contents as parameters.
-/

namespace RotationSensor

/-- Modulus of the 32-bit unsigned fields. -/
def U32 : Nat := 2 ^ 32

/-- Arduino constant: value returned by digitalPinToInterrupt for a pin
with no interrupt line. -/
def NOT_AN_INTERRUPT : Int := -1

/-- Sentinel returned by ReadRPM / ReadRevs when the sensor is not
enabled (RotationSensor.h line 21). -/
def NO_READING : Int := -1

/-- Interrupt trigger edge passed to attachInterrupt; the source always
uses RISING. -/
inductive Edge where
  | rising
  | falling
  | change
deriving DecidableEq

/-- The packed `_state` bitfield of RotationSensor.h lines 113-120.
Field values are kept below 2^8, 2^5, 2^2 respectively by every write. -/
structure StateBits where
  PulsesPerRev : Nat
  Pin : Nat
  IRQ : Nat
  Enabled : Bool
deriving DecidableEq

/-- The per-instance state of a RotationSensor object: the three volatile
uint32_t measurement fields plus the `_state` bitfield. -/
structure Sensor where
  count : Nat
  lastPulseTime : Nat
  prevPulseTime : Nat
  state : StateBits
deriving DecidableEq

/-- External state touched by Enable: for this sensor instance, whether
the dispatch-table slot `pSensors[i]` holds a pointer to it, and whether
interrupt line i is attached (bound) by it.  Index values come from the
2-bit IRQ field, so indices 0..3 can occur; the real array `pSensors`
(RotationSensor.cpp line 34) only has slots 0 and 1, so a write at index
2 or 3 is an out-of-bounds access in the C++. -/
structure Env where
  pSensors : Nat → Bool
  attached : Nat → Bool

/-- Boot state of the platform: the static table is zero-initialised
(all NULL) and no interrupt is attached. -/
def env0 : Env := { pSensors := fun _ => false, attached := fun _ => false }

/-- Externally visible actions performed by Enable, in program order. -/
inductive Action where
  | reset
  | register (irq : Nat)
  | attach (irq : Nat) (edge : Edge)
  | detach (irq : Nat)
  | clearEntry (irq : Nat)
  | logInvalid
deriving DecidableEq

/-- Constructor (RotationSensor.cpp lines 44-55):
`_state.Pin = pin` stores the low 5 bits of pin;
`_state.PulsesPerRev = max(1, pulsesPerRev)` stores the low 8 bits of the
clamped value; `_state.IRQ = digitalPinToInterrupt(_state.Pin)` stores
the low 2 bits of the mapping result; `_state.Enabled = false`.
The measurement fields are left uninitialised, so their initial uint32
contents c0 l0 p0 are parameters.  (The `pinMode` call touches no
modelled state.) -/
def construct (pin pulsesPerRev : Int) (dptI : Nat → Int) (c0 l0 p0 : Nat) : Sensor :=
  let pinStored : Nat := (pin.emod 32).toNat
  let pprStored : Nat := ((max 1 pulsesPerRev).emod 256).toNat
  let irqStored : Nat := ((dptI pinStored).emod 4).toNat
  { count := c0 % U32
    lastPulseTime := l0 % U32
    prevPulseTime := p0 % U32
    state := { PulsesPerRev := pprStored, Pin := pinStored, IRQ := irqStored,
               Enabled := false } }

/-- Reset (RotationSensor.cpp lines 61-80): zeroes the three measurement
fields (atomically, under noInterrupts/interrupts). -/
def Reset (s : Sensor) : Sensor :=
  { s with count := 0, lastPulseTime := 0, prevPulseTime := 0 }

/-- Enabled (RotationSensor.cpp lines 120-123):
`(_state.IRQ != NOT_AN_INTERRUPT) && _state.Enabled`.  The 2-bit
unsigned IRQ field promotes to a value in 0..3, compared against -1. -/
def Enabled (s : Sensor) : Bool :=
  ((s.state.IRQ : Int) != NOT_AN_INTERRUPT) && s.state.Enabled

/-- Enable (RotationSensor.cpp lines 88-114).  Returns the new sensor
state, the new external state and the ordered list of external actions.
Mirrors the source exactly: the invalid-pin guard compares the promoted
2-bit IRQ value with -1; on a disabled-to-enabled transition it calls
Reset, stores `this` into pSensors[irq], and attaches the interrupt
(RISING) only for irq 0 or 1; on any call with enabled=false it detaches
the interrupt and clears pSensors[irq]; finally `_state.Enabled = enabled`
in every path past the guard. -/
def Enable (enabled : Bool) (s : Sensor) (env : Env) : Sensor × Env × List Action :=
  if (s.state.IRQ : Int) = NOT_AN_INTERRUPT then
    (s, env, [Action.logInvalid])
  else
    let irq := s.state.IRQ
    if enabled && !s.state.Enabled then
      let s1 := Reset s
      let env1 : Env := { env with pSensors := fun i => if i = irq then true else env.pSensors i }
      let env2 : Env :=
        if irq = 0 ∨ irq = 1 then
          { env1 with attached := fun i => if i = irq then true else env1.attached i }
        else env1
      let acts : List Action :=
        if irq = 0 ∨ irq = 1 then
          [Action.reset, Action.register irq, Action.attach irq Edge.rising]
        else
          [Action.reset, Action.register irq]
      ({ s1 with state := { s1.state with Enabled := enabled } }, env2, acts)
    else if !enabled then
      let env1 : Env :=
        { pSensors := fun i => if i = irq then false else env.pSensors i
          attached := fun i => if i = irq then false else env.attached i }
      ({ s with state := { s.state with Enabled := enabled } }, env1,
        [Action.detach irq, Action.clearEntry irq])
    else
      ({ s with state := { s.state with Enabled := enabled } }, env, [])

/-- Disable (RotationSensor.h line 57): alias for Enable(false). -/
def Disable (s : Sensor) (env : Env) : Sensor × Env × List Action :=
  Enable false s env

/-- The CountData value struct (RotationSensor.h lines 23-37).
Count, LastCountTime, LastInterval are uint32_t; CountsPerRev and
SensorID are uint8_t. -/
structure CountData where
  Count : Nat
  LastCountTime : Nat
  LastInterval : Nat
  CountsPerRev : Nat
  SensorID : Nat
deriving DecidableEq

/-- RPM (RotationSensor.h line 33):
`(LastInterval == 0) ? 0.0 : (60000000.0 / (LastInterval * CountsPerRev))`
where `LastInterval * CountsPerRev` is 32-bit unsigned multiplication
(wraps mod 2^32) and the floating-point quotient is truncated to int,
which for these magnitudes equals integer floor division. -/
def CountData.RPM (d : CountData) : Nat :=
  if d.LastInterval = 0 then 0 else 60000000 / (d.LastInterval * d.CountsPerRev % U32)

/-- Revs (RotationSensor.h line 35): `((float)Count) / CountsPerRev`,
modelled in exact rational arithmetic. -/
def CountData.Revs (d : CountData) : Rat :=
  (d.Count : Rat) / (d.CountsPerRev : Rat)

/-- Read (RotationSensor.cpp lines 132-163).  Always fills SensorID and
CountsPerRev from the bitfield; if Enabled, copies the three measurement
fields under interrupt suppression and computes
`LastInterval = (prevTime == 0) ? 0 : (endTime - prevTime)` with 32-bit
wraparound subtraction; otherwise the default-constructed (zero)
measurement values are returned. -/
def Read (s : Sensor) : CountData :=
  let d0 : CountData :=
    { Count := 0, LastCountTime := 0, LastInterval := 0
      CountsPerRev := s.state.PulsesPerRev, SensorID := s.state.Pin }
  if Enabled s then
    { d0 with
        Count := s.count
        LastCountTime := s.lastPulseTime
        LastInterval :=
          if s.prevPulseTime = 0 then 0
          else (s.lastPulseTime + U32 - s.prevPulseTime) % U32 }
  else d0

/-- ReadCount (RotationSensor.cpp lines 169-182): the local `count` is
initialised to 0 and only overwritten from `_count` when Enabled. -/
def ReadCount (s : Sensor) : Nat :=
  if Enabled s then s.count else 0

/-- ReadRPM (RotationSensor.cpp lines 195-202): NO_READING when not
Enabled, else the RPM of a fresh Read.  The C++ return type is float;
both -1 and every RPM value (at most 60000000) are exactly
representable, so the result is modelled as an integer. -/
def ReadRPM (s : Sensor) : Int :=
  if !Enabled s then NO_READING else ((Read s).RPM : Int)

/-- ReadRevs (RotationSensor.cpp lines 210-217): NO_READING when not
Enabled, else the Revs of a fresh Read. -/
def ReadRevs (s : Sensor) : Rat :=
  if !Enabled s then (NO_READING : Rat) else (Read s).Revs

/-- Resolution (RotationSensor.h line 64): returns the 8-bit
PulsesPerRev field (as a nonnegative int). -/
def Resolution (s : Sensor) : Nat := s.state.PulsesPerRev

/-- ID (RotationSensor.h line 69): returns the 5-bit Pin field (as a
nonnegative int). -/
def ID (s : Sensor) : Nat := s.state.Pin

/-- Count_ISR (RotationSensor.cpp lines 221-236), the interrupt-context
mutator: `_prevPulseTime = _lastPulseTime; _lastPulseTime = now;
_count++;` with `now = micros()` a uint32 timestamp supplied by the
platform clock. -/
def Count_ISR (now : Nat) (s : Sensor) : Sensor :=
  { s with
      prevPulseTime := s.lastPulseTime
      lastPulseTime := now % U32
      count := (s.count + 1) % U32 }

/-- A burst of pulses: Count_ISR applied once per timestamp in the list,
in order. -/
def applyPulses (ts : List Nat) (s : Sensor) : Sensor :=
  ts.foldl (fun s t => Count_ISR t s) s

/-- Standard AVR pin-to-interrupt mapping (external platform layer, as
on an Arduino Uno): pin 2 is interrupt 0, pin 3 is interrupt 1, every
other pin has no interrupt line. -/
def dptIStd (p : Nat) : Int :=
  if p = 2 then 0 else if p = 3 then 1 else NOT_AN_INTERRUPT

/-- A sensor on a channel with no usable interrupt line: pin 4 maps to
NOT_AN_INTERRUPT on the standard layout. -/
def sNoIrq : Sensor := construct 4 1 dptIStd 0 0 0

/-- A sensor on pin 2 (interrupt line 0), resolution 1, freshly
constructed (still disabled); the measurement fields start with
arbitrary garbage 5, 6, 7. -/
def sDis : Sensor := construct 2 1 dptIStd 5 6 7

/-- The sensor sDis right after Enable(true): enabled, counters reset,
no pulse yet. -/
def sFresh : Sensor := (Enable true sDis env0).1

/-- The external state right after enabling sDis: dispatch slot 0 holds
the sensor and line 0 is attached. -/
def envA : Env := (Enable true sDis env0).2.1

/-- A 20 pulses-per-revolution sensor after Enable(true) and two pulses
at t = 1000 and t = 26000 microseconds (the 25 ms interval example). -/
def s120 : Sensor :=
  Count_ISR 26000 (Count_ISR 1000 (Enable true (construct 2 20 dptIStd 0 0 0) env0).1)

/-- A 20 pulses-per-revolution sensor after Enable(true) and two pulses
at t = 1 and t = 214748367: the interval is 214748366 microseconds, so
LastInterval * CountsPerRev = 4294967320 wraps mod 2^32 to 24. -/
def sWrap : Sensor :=
  Count_ISR 214748367 (Count_ISR 1 (Enable true (construct 2 20 dptIStd 0 0 0) env0).1)

/-- Pulse timestamps that make the 32-bit count wrap: 2^32 - 2 pulses at
time 1, then one at time 3 and one at time 5. -/
def tsWrapList : List Nat := List.replicate (U32 - 2) 1 ++ [3, 5]

/-- The enabled sensor sDis after the tsWrapList pulse burst: its count
has wrapped to 0 while its last two pulse times are 3 and 5. -/
def sC5 : Sensor := applyPulses tsWrapList sFresh

/-- One mainline step: Enable(b) on a sensor/platform pair. -/
def runE (b : Bool) (p : Sensor × Env) : Sensor × Env :=
  ((Enable b p.1 p.2).1, (Enable b p.1 p.2).2.1)

/-- One pulse step: the interrupt fires at time t. -/
def runP (t : Nat) (p : Sensor × Env) : Sensor × Env :=
  (Count_ISR t p.1, p.2)

/-- The scenario Enable, pulse, pulse, Disable, Enable of the spec:
counting must restart from zero. -/
def sC7pair : Sensor × Env :=
  runE true (runE false (runP 2000 (runP 1000 (runE true (construct 2 1 dptIStd 0 0 0, env0)))))

/-- The sensor component of sC7pair. -/
def sC7 : Sensor := sC7pair.1

/-- An enabled sensor with two pulses recorded (count 2, last pulse
2000, previous pulse 1000), used to instantiate the disable claims. -/
def sRun : Sensor := Count_ISR 2000 (Count_ISR 1000 sFresh)

end RotationSensor

namespace RotationSensor

/-! Claim theorems. -/

/-- C1: the claim says every Enable(true) on a sensor whose channel has
no interrupt line is rejected, with no reset, no registration and
Enabled() false forever.  The code contradicts this: storing
NOT_AN_INTERRUPT (-1) into the 2-bit unsigned IRQ bitfield yields 3, so
the guard `_state.IRQ == NOT_AN_INTERRUPT` (3 == -1) is false and the
rejection path is dead code.  Enable(true) on the pin-4 sensor proceeds:
it resets, registers the sensor at dispatch index 3 (out of bounds of
the 2-entry pSensors array), and sets the enabled bit, so Enabled()
returns true. -/
theorem C1_invalid_pin_enable_not_rejected :
    sNoIrq.state.IRQ = 3 ∧
    Enabled ((Enable true sNoIrq env0).1) = true ∧
    (Enable true sNoIrq env0).2.1.pSensors 3 = true ∧
    (Enable true sNoIrq env0).2.2 = [Action.reset, Action.register 3] := by
  decide

/-- C2 counterexample: the claim asserts the stored resolution is at
least 1 for every constructor argument, including arbitrarily large
ones.  With pulsesPerRev = 256 the clamp max(1, 256) = 256 is truncated
by the 8-bit PulsesPerRev bitfield to 0, so Resolution() returns 0. -/
theorem C2_counterexample_resolution_zero :
    Resolution (construct 2 256 dptIStd 0 0 0) = 0 ∧
    ¬ 1 ≤ Resolution (construct 2 256 dptIStd 0 0 0) := by
  decide

/-- C2 amended: for every pulsesPerRev at most 255 (in particular every
non-positive value) the stored resolution max(1, pulsesPerRev) fits the
8-bit field, so it is at least 1, and it is exactly 1 whenever
pulsesPerRev is non-positive. -/
theorem C2_resolution_clamped (pin ppr : Int) (dptI : Nat → Int) (c0 l0 p0 : Nat)
    (h : ppr ≤ 255) :
    1 ≤ Resolution (construct pin ppr dptI c0 l0 p0) ∧
    (ppr ≤ 0 → Resolution (construct pin ppr dptI c0 l0 p0) = 1) := by
  have hres : Resolution (construct pin ppr dptI c0 l0 p0) = ((max 1 ppr) % 256).toNat := rfl
  rw [hres]
  rcases le_total ppr 1 with hle | hge
  · rw [max_eq_left hle]
    exact ⟨le_refl 1, fun _ => rfl⟩
  · rw [max_eq_right hge]
    exact ⟨by omega, fun h0 => by omega⟩

/-- C2 witness: at pulsesPerRev = -5 the stored resolution is 1. -/
theorem C2_resolution_clamped_witness :
    1 ≤ Resolution (construct 2 (-5) dptIStd 0 0 0) ∧
    Resolution (construct 2 (-5) dptIStd 0 0 0) = 1 :=
  ⟨(C2_resolution_clamped 2 (-5) dptIStd 0 0 0 (by norm_num)).1,
   (C2_resolution_clamped 2 (-5) dptIStd 0 0 0 (by norm_num)).2 (by norm_num)⟩

/-- C3 counterexample: the claim says all four read operations return a
disabled sentinel distinguishable from every enabled return value.  But
a disabled sensor and a freshly enabled sensor (same pin, same
resolution, no pulses yet) give the identical ReadCount value 0 and the
identical Read structure, so Read and ReadCount have no distinguishable
sentinel. -/
theorem C3_counterexample_no_sentinel :
    Enabled sDis = false ∧ Enabled sFresh = true ∧
    ReadCount sDis = 0 ∧ ReadCount sFresh = 0 ∧
    Read sDis = Read sFresh := by
  decide

/-- C3 amended: while disabled, ReadRPM and ReadRevs return the
NO_READING sentinel -1, which is distinguishable from every enabled
return value of those operations (always nonnegative); Read and
ReadCount, by contrast, return zeroed data when disabled, which
coincides with a valid enabled reading taken right after a reset. -/
theorem C3_rpm_revs_sentinel :
    (∀ s : Sensor, Enabled s = false →
      ReadRPM s = NO_READING ∧ ReadRevs s = (NO_READING : Rat)) ∧
    (∀ s : Sensor, Enabled s = true →
      0 ≤ ReadRPM s ∧ 0 ≤ ReadRevs s) := by
  constructor
  · intro s h
    constructor
    · simp [ReadRPM, h]
    · simp [ReadRevs, h]
  · intro s h
    constructor
    · simp only [ReadRPM, h, Bool.not_true, Bool.false_eq_true, if_false]
      exact Int.ofNat_nonneg _
    · simp only [ReadRevs, h, Bool.not_true, Bool.false_eq_true, if_false, CountData.Revs]
      positivity

/-- C3 witness: the disabled sensor sDis reads the -1 sentinel from
ReadRPM and ReadRevs, and the enabled sensor sFresh reads nonnegative
values from both. -/
theorem C3_rpm_revs_sentinel_witness :
    (ReadRPM sDis = NO_READING ∧ ReadRevs sDis = (NO_READING : Rat)) ∧
    (0 ≤ ReadRPM sFresh ∧ 0 ≤ ReadRevs sFresh) :=
  ⟨C3_rpm_revs_sentinel.1 sDis (by decide),
   C3_rpm_revs_sentinel.2 sFresh (by decide)⟩

/-- C4 counterexample: the claim says RPM equals
60000000 / (last_interval * pulses_per_revolution) in exact arithmetic.
But the product is a 32-bit unsigned multiplication: after two pulses
214748366 microseconds apart on a 20 pulses-per-revolution sensor, the
product 4294967320 wraps mod 2^32 to 24 and the code yields RPM
2500000, whereas the exact formula gives 0. -/
theorem C4_counterexample_wrap :
    (Read sWrap).LastInterval = 214748366 ∧
    (Read sWrap).CountsPerRev = 20 ∧
    (Read sWrap).RPM = 2500000 ∧
    60000000 / ((Read sWrap).LastInterval * (Read sWrap).CountsPerRev) = 0 ∧
    ¬ (Read sWrap).RPM =
        60000000 / ((Read sWrap).LastInterval * (Read sWrap).CountsPerRev) := by
  decide

/-- C4 amended: RPM returns 0 when LastInterval = 0, and otherwise
60000000 divided by the product LastInterval * CountsPerRev computed
modulo 2^32 (32-bit unsigned multiplication); whenever that product is
below 2^32 this coincides with the exact formula of the claim.  In
particular, with 20 pulses per revolution and pulses at t = 1000 and
t = 26000 (a 25000 microsecond interval), ReadRPM returns exactly
120. -/
theorem C4_rpm_formula :
    (∀ d : CountData, d.LastInterval = 0 → d.RPM = 0) ∧
    (∀ d : CountData, d.LastInterval * d.CountsPerRev < U32 →
      d.RPM = if d.LastInterval = 0 then 0
              else 60000000 / (d.LastInterval * d.CountsPerRev)) ∧
    (Read s120).LastInterval = 25000 ∧ ReadRPM s120 = 120 := by
  refine ⟨fun d h => by simp [CountData.RPM, h], fun d h => ?_, by decide, by decide⟩
  unfold CountData.RPM
  rw [Nat.mod_eq_of_lt h]

/-- C4 witness: at the snapshot taken from s120 the product
25000 * 20 = 500000 does not wrap, and the amended formula evaluates to
120; a zero-interval snapshot gives RPM 0. -/
theorem C4_rpm_formula_witness :
    (Read sFresh).RPM = 0 ∧
    (Read s120).RPM =
      (if (Read s120).LastInterval = 0 then 0
       else 60000000 / ((Read s120).LastInterval * (Read s120).CountsPerRev)) :=
  ⟨C4_rpm_formula.1 (Read sFresh) (by decide),
   C4_rpm_formula.2.1 (Read s120) (by decide)⟩

/-- C9: the interrupt mutator Count_ISR maps the state
(count c, last l, prev p) at timestamp now to
(c + 1 mod 2^32, now, l): the previous-pulse time takes the old
last-pulse time, the last-pulse time takes now, the count increments
with unsigned wraparound, and the configuration bitfield is
untouched. -/
theorem C9_pulse_mutator (s : Sensor) (now : Nat) (h : now < U32) :
    (Count_ISR now s).count = (s.count + 1) % U32 ∧
    (Count_ISR now s).lastPulseTime = now ∧
    (Count_ISR now s).prevPulseTime = s.lastPulseTime ∧
    (Count_ISR now s).state = s.state := by
  refine ⟨rfl, ?_, rfl, rfl⟩
  show now % U32 = now
  exact Nat.mod_eq_of_lt h

/-- C9 witness: a pulse at time 12345 on the freshly enabled sensor. -/
theorem C9_pulse_mutator_witness :
    (Count_ISR 12345 sFresh).count = (sFresh.count + 1) % U32 ∧
    (Count_ISR 12345 sFresh).lastPulseTime = 12345 ∧
    (Count_ISR 12345 sFresh).prevPulseTime = sFresh.lastPulseTime ∧
    (Count_ISR 12345 sFresh).state = sFresh.state :=
  C9_pulse_mutator sFresh 12345 (by decide)

/-- C10: the constructor stores the pin in the 5-bit Pin bitfield, so
ID() returns the pin reduced modulo 32 (in particular it is always
below 32, and pins 32 and above alias onto lower identifiers). -/
theorem C10_id_is_pin_mod_32 (pin ppr : Int) (dptI : Nat → Int) (c0 l0 p0 : Nat) :
    (ID (construct pin ppr dptI c0 l0 p0) : Int) = pin % 32 ∧
    ID (construct pin ppr dptI c0 l0 p0) < 32 := by
  have hid : ID (construct pin ppr dptI c0 l0 p0) = (pin % 32).toNat := rfl
  rw [hid]
  constructor
  · rw [Int.toNat_of_nonneg (Int.emod_nonneg pin (by norm_num))]
  · omega

/-- Helper: a stored IRQ value of 0 or 1 never compares equal to the
NOT_AN_INTERRUPT sentinel. -/
theorem irq_valid_ne_sentinel (irq : Nat) (h : irq = 0 ∨ irq = 1) :
    ¬ ((irq : Int) = NOT_AN_INTERRUPT) := by
  rcases h with h | h <;> subst h <;> decide

/-- Helper: Enable(true) on an already enabled sensor with a live line
takes no branch and returns everything unchanged with no actions. -/
theorem Enable_true_on_enabled (c l p ppr pin irq : Nat) (env : Env)
    (hirq : irq = 0 ∨ irq = 1) :
    Enable true (Sensor.mk c l p (StateBits.mk ppr pin irq true)) env =
      (Sensor.mk c l p (StateBits.mk ppr pin irq true), env, []) := by
  rcases hirq with h | h <;> subst h <;> simp [Enable, NOT_AN_INTERRUPT]

/-- Helper: any Enable(false) call past the guard runs the
detach-then-clear branch and clears the Enabled bit, leaving the
measurement fields alone. -/
theorem Enable_false_run (c l p ppr pin irq : Nat) (en : Bool) (env : Env)
    (hirq : irq = 0 ∨ irq = 1) :
    Enable false (Sensor.mk c l p (StateBits.mk ppr pin irq en)) env =
      (Sensor.mk c l p (StateBits.mk ppr pin irq false),
       Env.mk (fun i => if i = irq then false else env.pSensors i)
              (fun i => if i = irq then false else env.attached i),
       [Action.detach irq, Action.clearEntry irq]) := by
  rcases hirq with h | h <;> subst h <;> simp [Enable, NOT_AN_INTERRUPT]

/-- Helper: Enable(true) on a disabled sensor with a live line resets
the counters, registers the sensor, attaches the line for RISING, and
sets the Enabled bit. -/
theorem Enable_true_on_disabled (c l p ppr pin irq : Nat) (env : Env)
    (hirq : irq = 0 ∨ irq = 1) :
    Enable true (Sensor.mk c l p (StateBits.mk ppr pin irq false)) env =
      (Sensor.mk 0 0 0 (StateBits.mk ppr pin irq true),
       Env.mk (fun i => if i = irq then true else env.pSensors i)
              (fun i => if i = irq then true else env.attached i),
       [Action.reset, Action.register irq, Action.attach irq Edge.rising]) := by
  rcases hirq with h | h <;> subst h <;> simp [Enable, NOT_AN_INTERRUPT, Reset]

/-- C6: for a sensor on a live interrupt line (IRQ 0 or 1), a redundant
Enable call leaves everything as it was.  Enable(true) while already
enabled takes no branch and performs no action at all.  Enable(false)
while already disabled re-runs the detach-and-clear branch, but in any
state reachable while disabled (its dispatch slot empty and its line
unattached, as holds from construction or after a previous disable) the
sensor state, the counters, the dispatch table and the attachment state
are all unchanged by it. -/
theorem C6_redundant_enable_noop (s : Sensor) (env : Env)
    (hirq : s.state.IRQ = 0 ∨ s.state.IRQ = 1) :
    (s.state.Enabled = true → Enable true s env = (s, env, [])) ∧
    (s.state.Enabled = false → env.pSensors s.state.IRQ = false →
      env.attached s.state.IRQ = false →
      (Enable false s env).1 = s ∧
      (Enable false s env).2.1.pSensors = env.pSensors ∧
      (Enable false s env).2.1.attached = env.attached) := by
  obtain ⟨c, l, p, st⟩ := s
  obtain ⟨ppr, pin, irq, en⟩ := st
  replace hirq : irq = 0 ∨ irq = 1 := hirq
  constructor
  · intro hen
    replace hen : en = true := hen
    subst hen
    exact Enable_true_on_enabled c l p ppr pin irq env hirq
  · intro hen hps hat
    replace hen : en = false := hen
    subst hen
    replace hps : env.pSensors irq = false := hps
    replace hat : env.attached irq = false := hat
    rw [Enable_false_run c l p ppr pin irq false env hirq]
    refine ⟨rfl, ?_, ?_⟩
    · funext i
      by_cases hi : i = irq
      · subst hi; simp [hps]
      · simp [hi]
    · funext i
      by_cases hi : i = irq
      · subst hi; simp [hat]
      · simp [hi]

/-- C6 witness: Enable(true) on the already enabled sensor sFresh (with
its platform state envA) changes nothing, and Enable(false) on the
still disabled sensor sDis at boot leaves the sensor, the dispatch
table and the attachment state unchanged. -/
theorem C6_redundant_enable_noop_witness :
    Enable true sFresh envA = (sFresh, envA, []) ∧
    ((Enable false sDis env0).1 = sDis ∧
     (Enable false sDis env0).2.1.pSensors = env0.pSensors ∧
     (Enable false sDis env0).2.1.attached = env0.attached) :=
  ⟨(C6_redundant_enable_noop sFresh envA (by decide)).1 (by decide),
   (C6_redundant_enable_noop sDis env0 (by decide)).2 (by decide) rfl rfl⟩

/-- C7: on a disabled sensor with a live interrupt line, Enable(true)
performs, in this order, the counter reset, the dispatch-table
registration, and the hardware attach for rising-edge triggering; the
resulting state has all three counters zero and is enabled, with the
dispatch slot and the attachment set.  Consequently the spec scenario
Enable, pulse, pulse, Disable, Enable, Read yields count 0. -/
theorem C7_enable_resets_then_registers_then_attaches (s : Sensor) (env : Env)
    (hirq : s.state.IRQ = 0 ∨ s.state.IRQ = 1)
    (hen : s.state.Enabled = false) :
    (Enable true s env).2.2 =
      [Action.reset, Action.register s.state.IRQ,
       Action.attach s.state.IRQ Edge.rising] ∧
    (Enable true s env).1.count = 0 ∧
    (Enable true s env).1.lastPulseTime = 0 ∧
    (Enable true s env).1.prevPulseTime = 0 ∧
    (Enable true s env).1.state.Enabled = true ∧
    (Enable true s env).2.1.pSensors s.state.IRQ = true ∧
    (Enable true s env).2.1.attached s.state.IRQ = true ∧
    ReadCount sC7 = 0 ∧ (Read sC7).Count = 0 := by
  obtain ⟨c, l, p, st⟩ := s
  obtain ⟨ppr, pin, irq, en⟩ := st
  replace hirq : irq = 0 ∨ irq = 1 := hirq
  replace hen : en = false := hen
  subst hen
  rw [Enable_true_on_disabled c l p ppr pin irq env hirq]
  refine ⟨rfl, rfl, rfl, rfl, rfl, by simp, by simp, by decide, by decide⟩

/-- C7 witness: the transition instantiated on the disabled sensor sDis
at boot. -/
theorem C7_enable_transition_witness :
    (Enable true sDis env0).2.2 =
      [Action.reset, Action.register sDis.state.IRQ,
       Action.attach sDis.state.IRQ Edge.rising] ∧
    (Enable true sDis env0).1.count = 0 ∧
    (Enable true sDis env0).1.lastPulseTime = 0 ∧
    (Enable true sDis env0).1.prevPulseTime = 0 ∧
    (Enable true sDis env0).1.state.Enabled = true ∧
    (Enable true sDis env0).2.1.pSensors sDis.state.IRQ = true ∧
    (Enable true sDis env0).2.1.attached sDis.state.IRQ = true ∧
    ReadCount sC7 = 0 ∧ (Read sC7).Count = 0 :=
  C7_enable_resets_then_registers_then_attaches sDis env0 (by decide) (by decide)

/-- C8: on an enabled sensor with a live interrupt line, Enable(false)
performs the hardware detach first and then clears the dispatch-table
slot, and leaves the pulse count, the last pulse time and the previous
pulse time exactly at their pre-disable values (frozen, not reset),
with the Enabled bit cleared. -/
theorem C8_disable_detaches_then_clears_and_freezes (s : Sensor) (env : Env)
    (hirq : s.state.IRQ = 0 ∨ s.state.IRQ = 1)
    (hen : s.state.Enabled = true) :
    (Enable false s env).2.2 =
      [Action.detach s.state.IRQ, Action.clearEntry s.state.IRQ] ∧
    (Enable false s env).1.count = s.count ∧
    (Enable false s env).1.lastPulseTime = s.lastPulseTime ∧
    (Enable false s env).1.prevPulseTime = s.prevPulseTime ∧
    (Enable false s env).1.state.Enabled = false ∧
    (Enable false s env).2.1.pSensors s.state.IRQ = false ∧
    (Enable false s env).2.1.attached s.state.IRQ = false := by
  obtain ⟨c, l, p, st⟩ := s
  obtain ⟨ppr, pin, irq, en⟩ := st
  replace hirq : irq = 0 ∨ irq = 1 := hirq
  replace hen : en = true := hen
  subst hen
  rw [Enable_false_run c l p ppr pin irq true env hirq]
  exact ⟨rfl, rfl, rfl, rfl, rfl, by simp, by simp⟩

/-- Helper: applyPulses distributes over cons. -/
theorem applyPulses_cons (t : Nat) (ts : List Nat) (s : Sensor) :
    applyPulses (t :: ts) s = applyPulses ts (Count_ISR t s) := rfl

/-- Helper: applyPulses distributes over append. -/
theorem applyPulses_append (l1 l2 : List Nat) (s : Sensor) :
    applyPulses (l1 ++ l2) s = applyPulses l2 (applyPulses l1 s) := by
  simp [applyPulses]

/-- Helper: the final two pulses of a burst determine the last two
timestamps. -/
theorem applyPulses_last_two (ts : List Nat) (a b : Nat) (s : Sensor) :
    applyPulses (ts ++ [a, b]) s = Count_ISR b (Count_ISR a (applyPulses ts s)) := by
  rw [applyPulses_append]
  rfl

/-- Helper: field equations of one Count_ISR step. -/
theorem Count_ISR_prev (now : Nat) (s : Sensor) :
    (Count_ISR now s).prevPulseTime = s.lastPulseTime := rfl

/-- Helper: the last-pulse field after one Count_ISR step. -/
theorem Count_ISR_last (now : Nat) (s : Sensor) :
    (Count_ISR now s).lastPulseTime = now % U32 := rfl

/-- Helper: the count field after one Count_ISR step. -/
theorem Count_ISR_count (now : Nat) (s : Sensor) :
    (Count_ISR now s).count = (s.count + 1) % U32 := rfl

/-- Helper: pulses never touch the configuration bitfield. -/
theorem applyPulses_state (ts : List Nat) (s : Sensor) :
    (applyPulses ts s).state = s.state := by
  induction ts generalizing s with
  | nil => rfl
  | cons t ts ih =>
      rw [applyPulses_cons, ih]
      rfl

/-- Helper: a burst of n pulses advances the 32-bit count by n modulo
2^32. -/
theorem applyPulses_count (ts : List Nat) (s : Sensor) (h : s.count < U32) :
    (applyPulses ts s).count = (s.count + ts.length) % U32 := by
  induction ts generalizing s with
  | nil =>
      show s.count = (s.count + ([] : List Nat).length) % U32
      simp [Nat.mod_eq_of_lt h]
  | cons t ts ih =>
      rw [applyPulses_cons, ih (Count_ISR t s) (Nat.mod_lt _ (by decide))]
      show ((s.count + 1) % U32 + ts.length) % U32 = (s.count + (t :: ts).length) % U32
      rw [Nat.mod_add_mod]
      congr 1
      simp [List.length_cons]
      omega

/-- Helper: a snapshot with a nonzero LastInterval can only come from an
enabled sensor whose previous-pulse time is nonzero. -/
theorem Read_LastInterval_ne_zero (s : Sensor) (h : (Read s).LastInterval ≠ 0) :
    s.prevPulseTime ≠ 0 ∧ Enabled s = true := by
  by_cases he : Enabled s
  · refine ⟨?_, he⟩
    intro hp
    simp [Read, he, hp] at h
  · simp [Read, he] at h

/-- Helper: an enabled snapshot copies the live count. -/
theorem Read_Count_enabled (s : Sensor) (he : Enabled s = true) :
    (Read s).Count = s.count := by
  simp [Read, he]

/-- Helper: an enabled snapshot with a nonzero previous-pulse time
carries the 32-bit wraparound difference of the last two pulse times. -/
theorem Read_LastInterval_enabled (s : Sensor) (he : Enabled s = true)
    (hp : s.prevPulseTime ≠ 0) :
    (Read s).LastInterval = (s.lastPulseTime + U32 - s.prevPulseTime) % U32 := by
  simp [Read, he, hp]

/-- C5 amended: a snapshot taken after any burst of fewer than 2^32
pulses since the last reset never shows a nonzero LastInterval together
with a count below 2 (a nonzero interval needs a nonzero previous-pulse
time, which takes at least two pulses; with no 32-bit wraparound of the
count the copied count is the number of pulses).  The unqualified claim
fails once the count wraps, see the counterexample. -/
theorem C5_interval_implies_two_pulses (s0 : Sensor) (ts : List Nat)
    (hlen : ts.length < U32) :
    (Read (applyPulses ts (Reset s0))).LastInterval ≠ 0 →
    2 ≤ (Read (applyPulses ts (Reset s0))).Count := by
  intro h
  obtain ⟨hprev, hen⟩ := Read_LastInterval_ne_zero _ h
  have h2 : 2 ≤ ts.length := by
    rcases ts with _ | ⟨a, _ | ⟨b, l⟩⟩
    · exact absurd rfl hprev
    · exact absurd rfl hprev
    · simp [List.length_cons]
  have hc0 : (Reset s0).count = 0 := rfl
  rw [Read_Count_enabled _ hen, applyPulses_count ts (Reset s0) (by rw [hc0]; decide)]
  rw [hc0, Nat.zero_add, Nat.mod_eq_of_lt hlen]
  exact h2

/-- C5 witness: after a reset of the enabled sensor and two pulses at
1000 and 2000 the snapshot has a nonzero interval, and indeed a count of
at least 2. -/
theorem C5_interval_implies_two_pulses_witness :
    2 ≤ (Read (applyPulses [1000, 2000] (Reset sFresh))).Count :=
  C5_interval_implies_two_pulses sFresh [1000, 2000] (by decide) (by decide)

/-- C5 counterexample: the unqualified claim is violated once the
32-bit count wraps.  After 2^32 - 2 pulses at time 1, one at time 3 and
one at time 5 on the enabled sensor, the snapshot shows
LastInterval = 2 (nonzero) while the wrapped Count is 0, i.e. fewer
than two counted pulses. -/
theorem C5_counterexample_wraparound :
    Enabled sC5 = true ∧
    (Read sC5).LastInterval ≠ 0 ∧
    (Read sC5).Count < 2 := by
  have hsplit : sC5 =
      Count_ISR 5 (Count_ISR 3 (applyPulses (List.replicate (U32 - 2) 1) sFresh)) :=
    applyPulses_last_two (List.replicate (U32 - 2) 1) 3 5 sFresh
  have hstate : sC5.state = sFresh.state := applyPulses_state _ _
  have hen : Enabled sC5 = true := by
    show (((sC5.state.IRQ : Int) != NOT_AN_INTERRUPT) && sC5.state.Enabled) = true
    rw [hstate]
    decide
  have hXc : (applyPulses (List.replicate (U32 - 2) 1) sFresh).count = U32 - 2 := by
    rw [applyPulses_count _ _ (show sFresh.count < U32 by decide)]
    rw [List.length_replicate]
    have h0 : sFresh.count = 0 := by decide
    rw [h0, Nat.zero_add, Nat.mod_eq_of_lt (by decide)]
  have hprev : sC5.prevPulseTime = 3 := by
    rw [hsplit, Count_ISR_prev, Count_ISR_last]
    decide
  have hlast : sC5.lastPulseTime = 5 := by
    rw [hsplit, Count_ISR_last]
    decide
  have hcount : sC5.count = 0 := by
    rw [hsplit, Count_ISR_count, Count_ISR_count, hXc]
    decide
  refine ⟨hen, ?_, ?_⟩
  · rw [Read_LastInterval_enabled sC5 hen (by rw [hprev]; decide), hprev, hlast]
    decide
  · rw [Read_Count_enabled _ hen, hcount]
    decide

/-- C8 witness: disabling the running sensor sRun (count 2, pulses at
1000 and 2000) freezes its measurement fields at those values. -/
theorem C8_disable_freezes_witness :
    (Enable false sRun envA).2.2 =
      [Action.detach sRun.state.IRQ, Action.clearEntry sRun.state.IRQ] ∧
    (Enable false sRun envA).1.count = sRun.count ∧
    (Enable false sRun envA).1.lastPulseTime = sRun.lastPulseTime ∧
    (Enable false sRun envA).1.prevPulseTime = sRun.prevPulseTime ∧
    (Enable false sRun envA).1.state.Enabled = false ∧
    (Enable false sRun envA).2.1.pSensors sRun.state.IRQ = false ∧
    (Enable false sRun envA).2.1.attached sRun.state.IRQ = false :=
  C8_disable_detaches_then_clears_and_freezes sRun envA (by decide) (by decide)

end RotationSensor
